import Mathlib

/-
  Verification of the BigQuery Job lifecycle core
  (src/sources/sdk/pygcp/gcp/bigquery/_job.py).

  The embedding models a `Job` handle as cached state, the external
  StatusProvider as an environment function from call index to outcome,
  and each accessor / the wait loop as explicit state-passing functions.
-/

namespace PyGcpBigQuery

/-- The JobError named tuple `(location, message, reason)`; each component is
the value of `dict.get(key, None)`, hence optional. -/
structure JobError where
  location : Option String
  message : Option String
  reason : Option String
deriving DecidableEq

/-- A raw error payload inside a status response (`errorResult`, or one
element of `errors`): a dict whose three relevant keys may each be absent. -/
structure ErrorPayload where
  location : Option String
  message : Option String
  reason : Option String
deriving DecidableEq

/-- The `status` sub-object of a job resource: optional `state` string,
optional `errorResult` payload, optional `errors` list. -/
structure JobStatus where
  state : Option String
  errorResult : Option ErrorPayload
  errors : Option (List ErrorPayload)
deriving DecidableEq

/-- A successful response of `api.jobs_get`: the `status` key may be absent. -/
structure StatusResponse where
  status : Option JobStatus
deriving DecidableEq

/-- The mutable state of a `Job` instance (its `__init__` fields other than
the api collaborator). -/
structure Job where
  job_id : String
  is_complete : Bool
  errors : Option (List JobError)
  fatal_error : Option JobError
deriving DecidableEq

/-- `Job.__init__`: stores the id, `_is_complete = False`,
`_errors = None`, `_fatal_error = None`. -/
def Job.new (job_id : String) : Job :=
  { job_id := job_id, is_complete := false, errors := none, fatal_error := none }

/-- Parsing one raw error payload into a JobError:
`JobError(d.get('location', None), d.get('message', None), d.get('reason', None))`. -/
def parseJobError (e : ErrorPayload) : JobError :=
  { location := e.location, message := e.message, reason := e.reason }

/-- The body of `Job._refresh_state` after a successful `jobs_get` call:
how one response updates the cached job state. -/
def applyResponse (j : Job) (response : StatusResponse) : Job :=
  match response.status with
  | none => j
  | some status =>
    if status.state = some "DONE" then
      let j1 : Job := { j with is_complete := true }
      let j2 : Job :=
        match status.errorResult with
        | none => j1
        | some er => { j1 with fatal_error := some (parseJobError er) }
      match status.errors with
      | none => j2
      | some errs => { j2 with errors := some (errs.map parseJobError) }
    else j

/-- Outcome of one `api.jobs_get` invocation: a response, or a raised
transport/API error (carried as an opaque string). -/
inductive ApiResult where
  | ok (response : StatusResponse)
  | transportError (e : String)

/-- A job handle together with its environment: `api n` is the outcome of the
`n`-th `jobs_get` call, `calls` counts the calls made so far, and `sleeps`
logs the durations passed to `_sleep`, in order. -/
structure World where
  job : Job
  api : Nat → ApiResult
  calls : Nat
  sleeps : List Int

/-- Result of running a method: a returned value in the final world, or an
uncaught exception in the world at the moment it was raised. -/
inductive Res (α : Type) where
  | ok (v : α) (w : World)
  | exn (e : String) (w : World)

/-- The world a method run ends in, whether it returned or raised. -/
def Res.world {α : Type} : Res α → World
  | .ok _ w => w
  | .exn _ w => w

/-- `Job._refresh_state`: early return when already complete; otherwise one
`jobs_get` call (counted), whose failure propagates and whose success is
folded into the cached state by `applyResponse`. -/
def refresh_state (w : World) : Res Unit :=
  if w.job.is_complete then .ok () w
  else
    match w.api w.calls with
    | .transportError e => .exn e { w with calls := w.calls + 1 }
    | .ok response =>
      .ok () { w with calls := w.calls + 1, job := applyResponse w.job response }

/-- The `iscomplete` property: refresh, then return `self._is_complete`. -/
def iscomplete (w : World) : Res Bool :=
  match refresh_state w with
  | .exn e w2 => .exn e w2
  | .ok _ w2 => .ok w2.job.is_complete w2

/-- The Python value of the expression `self._is_complete and self._fatal_error`:
the boolean `False`, or `None`, or the JobError tuple itself. -/
inductive PyTruthy where
  | pyBool (b : Bool)
  | pyNone
  | pyErr (e : JobError)
deriving DecidableEq

/-- Python truthiness of such a value (a named tuple of three fields is a
nonempty tuple, hence truthy). -/
def truthy : PyTruthy → Bool
  | .pyBool b => b
  | .pyNone => false
  | .pyErr _ => true

/-- The value `self._is_complete and self._fatal_error` computed from a job
state: Python `and` returns the left operand when it is falsy, else the right. -/
def failedValue (j : Job) : PyTruthy :=
  if j.is_complete then
    match j.fatal_error with
    | none => .pyNone
    | some e => .pyErr e
  else .pyBool false

/-- The `failed` property: refresh, then return
`self._is_complete and self._fatal_error`. -/
def failed (w : World) : Res PyTruthy :=
  match refresh_state w with
  | .exn e w2 => .exn e w2
  | .ok _ w2 => .ok (failedValue w2.job) w2

/-- The `fatal_error` property: refresh, then return `self._fatal_error`. -/
def fatal_error (w : World) : Res (Option JobError) :=
  match refresh_state w with
  | .exn e w2 => .exn e w2
  | .ok _ w2 => .ok w2.job.fatal_error w2

/-- The `errors` property: refresh, then return `self._errors`. -/
def errors (w : World) : Res (Option (List JobError)) :=
  match refresh_state w with
  | .exn e w2 => .exn e w2
  | .ok _ w2 => .ok w2.job.errors w2

/-- `_sleep(poll)`: log one sleep of the given duration. -/
def sleepW (poll : Int) (w : World) : World :=
  { w with sleeps := w.sleeps ++ [poll] }

/-- `Job.wait(timeout, poll)`, fuel-indexed to stay total: each iteration
evaluates `self.iscomplete` (one refresh); if complete return True; else if a
timeout was given and is `<= 0` return False without sleeping; else decrement
the budget by `poll`, sleep `poll`, and retry.  `ok none` marks fuel
exhaustion (the loop would still be running). -/
def wait (fuel : Nat) (timeout : Option Int) (poll : Int) (w : World) :
    Res (Option Bool) :=
  match fuel with
  | 0 => .ok none w
  | fuel + 1 =>
    match iscomplete w with
    | .exn e w2 => .exn e w2
    | .ok complete w2 =>
      if complete then .ok (some true) w2
      else
        match timeout with
        | some t =>
          if t ≤ 0 then .ok (some false) w2
          else wait fuel (some (t - poll)) poll (sleepW poll w2)
        | none => wait fuel none poll (sleepW poll w2)

/-- One public operation on the handle. -/
inductive Op where
  | opIscomplete
  | opFailed
  | opFatalError
  | opErrors
  | opWait (fuel : Nat) (timeout : Option Int) (poll : Int)

/-- Run one operation, keeping the world it ends in (whether it returned or
raised). -/
def runOp (w : World) : Op → World
  | .opIscomplete => (iscomplete w).world
  | .opFailed => (failed w).world
  | .opFatalError => (fatal_error w).world
  | .opErrors => (errors w).world
  | .opWait fuel t p => (wait fuel t p w).world

/-- Run a sequence of operations left to right. -/
def runOps (w : World) (ops : List Op) : World :=
  ops.foldl runOp w

/-- The world after one `_refresh_state`, whether it returned or raised. -/
def refreshWorld (w : World) : World :=
  (refresh_state w).world

/-- Iterate `n` refreshes. -/
def refreshes : Nat → World → World
  | 0, w => w
  | n + 1, w => refreshes n (refreshWorld w)

/-- A response whose job is still running. -/
def respRunning : StatusResponse :=
  { status := some { state := some "RUNNING", errorResult := none, errors := none } }

/-- A DONE response with neither errorResult nor errors. -/
def respDoneClean : StatusResponse :=
  { status := some { state := some "DONE", errorResult := none, errors := none } }

/-- A DONE response whose errorResult is `{message: "boom"}`. -/
def respDoneBoom : StatusResponse :=
  { status := some
      { state := some "DONE",
        errorResult := some { location := none, message := some "boom", reason := none },
        errors := none } }

/-- A DONE response with `errors = [{reason: "a"}, {reason: "b"}]` and no
errorResult. -/
def respDoneAB : StatusResponse :=
  { status := some
      { state := some "DONE", errorResult := none,
        errors := some
          [{ location := none, message := none, reason := some "a" },
           { location := none, message := none, reason := some "b" }] } }

/-- A DONE response with an empty `errors` list present. -/
def respDoneEmptyErrors : StatusResponse :=
  { status := some { state := some "DONE", errorResult := none, errors := some [] } }

/-- A response with no `status` field at all. -/
def respNoStatus : StatusResponse := { status := none }

/-- A fresh world: new job, given environment, no calls, no sleeps. -/
def freshWorld (api : Nat → ApiResult) : World :=
  { job := Job.new "job", api := api, calls := 0, sleeps := [] }

/-- An environment that always answers with a still-running job. -/
def apiAlwaysRunning : Nat → ApiResult := fun _ => .ok respRunning

/-- An environment that always answers DONE with no errors. -/
def apiAlwaysDone : Nat → ApiResult := fun _ => .ok respDoneClean

/-- A world whose job has already reached the terminal state, with a fatal
error on record; the environment would detect any further getStatus call. -/
def wDone : World :=
  { job := { job_id := "job1", is_complete := true, errors := none,
             fatal_error := some { location := none, message := some "boom", reason := none } },
    api := fun _ => .transportError "unreachable",
    calls := 7, sleeps := [] }

/-- A world whose job is complete with no fatal error and no partial errors. -/
def wDoneClean : World :=
  { job := { job_id := "job1", is_complete := true, errors := none, fatal_error := none },
    api := fun _ => .transportError "unreachable",
    calls := 0, sleeps := [] }

/-- A fresh world against a job that never completes. -/
def wNever : World := freshWorld apiAlwaysRunning

/-- A fresh world whose first response is DONE with `errorResult = {message: "boom"}`. -/
def wBoom : World := freshWorld (fun _ => .ok respDoneBoom)

/-- A fresh world whose first response is DONE with two partial errors. -/
def wAB : World := freshWorld (fun _ => .ok respDoneAB)

/-- A fresh world whose first response is DONE with an empty `errors` list. -/
def wEmptyErrs : World := freshWorld (fun _ => .ok respDoneEmptyErrors)

/-- A fresh world whose first response carries no `status` field. -/
def wNoStatus : World := freshWorld (fun _ => .ok respNoStatus)

/-- A fresh world whose first getStatus call raises a transport error. -/
def wNet : World := freshWorld (fun _ => .transportError "socket timeout")

/- Helper lemmas. -/

theorem refresh_complete (w : World) (h : w.job.is_complete = true) :
    refresh_state w = .ok () w := by
  simp [refresh_state, h]

theorem refresh_state_shape (w : World) :
    refresh_state w = .ok () (refreshWorld w) ∨
      ∃ e, refresh_state w = .exn e (refreshWorld w) := by
  unfold refreshWorld
  cases refresh_state w with
  | ok v w2 => left; rfl
  | exn e w2 => right; exact ⟨e, rfl⟩

theorem refreshWorld_complete_fix (w : World) (h : w.job.is_complete = true) :
    refreshWorld w = w := by
  unfold refreshWorld
  rw [refresh_complete w h]
  rfl

theorem iscomplete_world (w : World) : (iscomplete w).world = refreshWorld w := by
  unfold iscomplete refreshWorld
  cases refresh_state w <;> rfl

theorem failed_world (w : World) : (failed w).world = refreshWorld w := by
  unfold failed refreshWorld
  cases refresh_state w <;> rfl

theorem fatal_error_world (w : World) :
    (fatal_error w).world = refreshWorld w := by
  unfold fatal_error refreshWorld
  cases refresh_state w <;> rfl

theorem errors_world (w : World) : (errors w).world = refreshWorld w := by
  unfold errors refreshWorld
  cases refresh_state w <;> rfl

theorem iscomplete_of_complete (w : World) (h : w.job.is_complete = true) :
    iscomplete w = .ok true w := by
  unfold iscomplete
  rw [refresh_complete w h]
  show Res.ok w.job.is_complete w = Res.ok true w
  rw [h]

theorem wait_world_complete (fuel : Nat) (t : Option Int) (p : Int) (w : World)
    (h : w.job.is_complete = true) : (wait fuel t p w).world = w := by
  cases fuel with
  | zero => rfl
  | succ n =>
    unfold wait
    rw [iscomplete_of_complete w h]
    rfl

theorem runOp_complete (w : World) (op : Op) (h : w.job.is_complete = true) :
    runOp w op = w := by
  cases op with
  | opIscomplete => simp [runOp, iscomplete_world, refreshWorld_complete_fix w h]
  | opFailed => simp [runOp, failed_world, refreshWorld_complete_fix w h]
  | opFatalError => simp [runOp, fatal_error_world, refreshWorld_complete_fix w h]
  | opErrors => simp [runOp, errors_world, refreshWorld_complete_fix w h]
  | opWait fuel t p => simp [runOp, wait_world_complete fuel t p w h]

theorem runOps_complete (w : World) (ops : List Op)
    (h : w.job.is_complete = true) : runOps w ops = w := by
  induction ops with
  | nil => rfl
  | cons op ops ih =>
    show runOps (runOp w op) ops = w
    rw [runOp_complete w op h]
    exact ih

theorem applyResponse_eq_of_incomplete (j : Job) (r : StatusResponse)
    (h : (applyResponse j r).is_complete = false) : applyResponse j r = j := by
  unfold applyResponse at h ⊢
  cases hr : r.status with
  | none => rfl
  | some status =>
    by_cases hs : status.state = some "DONE"
    · cases he : status.errorResult <;> cases hl : status.errors <;>
        simp [hr, hs, he, hl] at h
    · simp [hs]

theorem refreshWorld_job_shape (w : World) :
    (refreshWorld w).job = w.job ∨
      ∃ r, (refreshWorld w).job = applyResponse w.job r := by
  by_cases hc : w.job.is_complete = true
  · left; rw [refreshWorld_complete_fix w hc]
  · unfold refreshWorld refresh_state
    rw [if_neg hc]
    cases w.api w.calls with
    | transportError e => left; rfl
    | ok r => right; exact ⟨r, rfl⟩

theorem refreshWorld_job_of_incomplete (w : World)
    (h : (refreshWorld w).job.is_complete = false) :
    (refreshWorld w).job = w.job := by
  rcases refreshWorld_job_shape w with heq | ⟨r, heq⟩
  · exact heq
  · rw [heq] at h ⊢
    exact applyResponse_eq_of_incomplete _ _ h

theorem refreshWorld_change (w : World) (h : (refreshWorld w).job ≠ w.job) :
    w.job.is_complete = false ∧ (refreshWorld w).job.is_complete = true := by
  by_cases hc : w.job.is_complete = true
  · exact absurd (by rw [refreshWorld_complete_fix w hc]) h
  · refine ⟨by simpa using hc, ?_⟩
    by_contra hcc
    exact h (refreshWorld_job_of_incomplete w (by simpa using hcc))

theorem refreshes_complete (n : Nat) (w : World) (h : w.job.is_complete = true) :
    refreshes n w = w := by
  induction n with
  | zero => rfl
  | succ n ih =>
    show refreshes n (refreshWorld w) = w
    rw [refreshWorld_complete_fix w h]
    exact ih

theorem refreshWorld_calls (w : World) :
    (refreshWorld w).calls = w.calls + (if w.job.is_complete then 0 else 1) := by
  by_cases hc : w.job.is_complete = true
  · rw [refreshWorld_complete_fix w hc]
    simp [hc]
  · have hcf : w.job.is_complete = false := by simpa using hc
    unfold refreshWorld refresh_state
    rw [if_neg hc]
    cases w.api w.calls <;> simp [hcf, Res.world]

theorem iscomplete_shape (w : World) :
    iscomplete w = .ok (refreshWorld w).job.is_complete (refreshWorld w) ∨
      ∃ e, iscomplete w = .exn e (refreshWorld w) := by
  unfold iscomplete
  rcases refresh_state_shape w with hr | ⟨e, hr⟩
  · rw [hr]; left; rfl
  · rw [hr]; right; exact ⟨e, rfl⟩

theorem wait_one_world_calls (t : Option Int) (p : Int) (w : World) :
    (wait 1 t p w).world.calls = (refreshWorld w).calls := by
  rcases iscomplete_shape w with hi | ⟨e, hi⟩
  · cases hc : (refreshWorld w).job.is_complete with
    | true => simp [wait, hi, hc, Res.world]
    | false =>
      cases t with
      | none => simp [wait, hi, hc, Res.world, sleepW]
      | some tv =>
        by_cases ht : tv ≤ 0
        · simp [wait, hi, hc, ht, Res.world]
        · simp [wait, hi, hc, ht, Res.world, sleepW]
  · simp [wait, hi, Res.world]

theorem refreshes_add (n k : Nat) (w : World) :
    refreshes (n + k) w = refreshes k (refreshes n w) := by
  induction n generalizing w with
  | zero => rw [Nat.zero_add]; rfl
  | succ n ih =>
    have : n + 1 + k = (n + k) + 1 := by omega
    rw [this]
    show refreshes (n + k) (refreshWorld w) = refreshes k (refreshes n (refreshWorld w))
    exact ih (refreshWorld w)

theorem refresh_ok_of_api_ok (w : World) (r : StatusResponse)
    (hc : w.job.is_complete = false) (hr : w.api w.calls = .ok r) :
    refresh_state w =
      .ok () { w with calls := w.calls + 1, job := applyResponse w.job r } := by
  unfold refresh_state
  rw [if_neg (by simp [hc]), hr]

theorem refresh_exn_of_api_err (w : World) (e : String)
    (hc : w.job.is_complete = false) (hr : w.api w.calls = .transportError e) :
    refresh_state w = .exn e { w with calls := w.calls + 1 } := by
  unfold refresh_state
  rw [if_neg (by simp [hc]), hr]

theorem refreshWorld_sleeps (w : World) : (refreshWorld w).sleeps = w.sleeps := by
  unfold refreshWorld refresh_state
  by_cases hc : w.job.is_complete = true
  · rw [if_pos hc]
    rfl
  · rw [if_neg hc]
    cases w.api w.calls <;> rfl

/-- Claim C1: once `is_complete` is true, every sequence of subsequent
operations (iscomplete, failed, fatal_error, errors, wait) leaves the world
unchanged; in particular the getStatus call counter does not move, so no
further StatusProvider call is made. -/
theorem C1_cache_trust (w : World) (ops : List Op)
    (h : w.job.is_complete = true) :
    runOps w ops = w ∧ (runOps w ops).calls = w.calls := by
  have hfix := runOps_complete w ops h
  exact ⟨hfix, by rw [hfix]⟩

/-- Concrete instance of C1: a complete handle, five subsequent operations,
call counter untouched. -/
theorem C1_cache_trust_witness :
    wDone.job.is_complete = true ∧
      (runOps wDone
        [Op.opIscomplete, Op.opFailed, Op.opWait 3 none 5,
         Op.opErrors, Op.opFatalError]).calls = wDone.calls :=
  ⟨rfl, (C1_cache_trust wDone
    [Op.opIscomplete, Op.opFailed, Op.opWait 3 none 5,
     Op.opErrors, Op.opFatalError] rfl).2⟩

/-- Claim C2: along any sequence of refreshes, `is_complete` is monotone
(false to true, never back), the whole job state is frozen from the first
refresh index at which `is_complete` holds, and any refresh step that changes
the job state at all is precisely a step that turns `is_complete` from false
to true — so `fatal_error` and `errors` are assigned at most once, only in
the completing refresh. -/
theorem C2_state_monotonic (w : World) (n m : Nat) (hnm : n ≤ m)
    (h : (refreshes n w).job.is_complete = true) :
    (refreshes m w).job = (refreshes n w).job ∧
      (refreshes m w).job.is_complete = true ∧
      ∀ u : World, (refreshWorld u).job ≠ u.job →
        u.job.is_complete = false ∧ (refreshWorld u).job.is_complete = true := by
  obtain ⟨k, rfl⟩ := Nat.le.dest hnm
  have hstable : refreshes (n + k) w = refreshes n w := by
    rw [refreshes_add]
    exact refreshes_complete k _ h
  exact ⟨by rw [hstable], by rw [hstable]; exact h, fun u => refreshWorld_change u⟩

/-- Concrete instance of C2: completion after one refresh persists through
the third. -/
theorem C2_state_monotonic_witness :
    1 ≤ 3 ∧ (refreshes 1 (freshWorld apiAlwaysDone)).job.is_complete = true ∧
      (refreshes 3 (freshWorld apiAlwaysDone)).job =
        (refreshes 1 (freshWorld apiAlwaysDone)).job :=
  ⟨by decide, by rfl,
    (C2_state_monotonic (freshWorld apiAlwaysDone) 1 3 (by decide) (by rfl)).1⟩

/-- Claim C10: a single accessor invocation performs exactly one getStatus
call when the handle is incomplete and none when it is complete, and one
iteration of the wait loop (fuel 1) behaves the same way. -/
theorem C10_single_call (w : World) :
    ((iscomplete w).world.calls = w.calls + (if w.job.is_complete then 0 else 1)) ∧
      ((failed w).world.calls = w.calls + (if w.job.is_complete then 0 else 1)) ∧
      ((fatal_error w).world.calls = w.calls + (if w.job.is_complete then 0 else 1)) ∧
      ((errors w).world.calls = w.calls + (if w.job.is_complete then 0 else 1)) ∧
      ∀ t p, (wait 1 t p w).world.calls =
        w.calls + (if w.job.is_complete then 0 else 1) := by
  refine ⟨?_, ?_, ?_, ?_, fun t p => ?_⟩
  · rw [iscomplete_world, refreshWorld_calls]
  · rw [failed_world, refreshWorld_calls]
  · rw [fatal_error_world, refreshWorld_calls]
  · rw [errors_world, refreshWorld_calls]
  · rw [wait_one_world_calls, refreshWorld_calls]

/-- Counterexample to C3 as stated: on a complete handle with no fatal error,
`failed` evaluates `self._is_complete and self._fatal_error` and so returns
the Python value None — not the boolean False, and not any boolean. -/
theorem C3_failed_counterexample :
    failed wDoneClean = Res.ok PyTruthy.pyNone wDoneClean ∧
      PyTruthy.pyNone ≠ PyTruthy.pyBool false ∧
      PyTruthy.pyNone ≠ PyTruthy.pyBool true :=
  ⟨rfl, by decide, by decide⟩

/-- Claim C3 (amended): `failed` returns the Python value of
`self._is_complete and self._fatal_error`, whose truthiness is true iff the
handle is complete and a fatal error is set; it is the boolean False exactly
while still incomplete after the refresh, and None (falsy, but not False)
when complete without a fatal error — even when partial errors are present. -/
theorem C3_failed_truthy (w w2 : World) (h : refresh_state w = .ok () w2) :
    failed w = .ok (failedValue w2.job) w2 ∧
      truthy (failedValue w2.job) =
        (w2.job.is_complete && w2.job.fatal_error.isSome) ∧
      (w2.job.is_complete = false → failedValue w2.job = .pyBool false) ∧
      (w2.job.is_complete = true → w2.job.fatal_error = none →
        failedValue w2.job = .pyNone) := by
  refine ⟨by unfold failed; rw [h], ?_, ?_, ?_⟩
  · cases hc : w2.job.is_complete <;> cases hf : w2.job.fatal_error <;>
      simp [failedValue, truthy, hc, hf]
  · intro hc
    simp [failedValue, hc]
  · intro hc hf
    simp [failedValue, hc, hf]

/-- Concrete instance of the amended C3. -/
theorem C3_failed_truthy_witness :
    refresh_state wBoom = Res.ok () (refreshWorld wBoom) ∧
      truthy (failedValue (refreshWorld wBoom).job) =
        ((refreshWorld wBoom).job.is_complete &&
          (refreshWorld wBoom).job.fatal_error.isSome) :=
  ⟨rfl, (C3_failed_truthy wBoom (refreshWorld wBoom) rfl).2.1⟩

/-- Counterexample to C4 as stated: a DONE response carrying `errors: []`
(present but empty) makes `_refresh_state` store the empty list, so the
`errors` accessor returns the empty sequence — not None. -/
theorem C4_empty_errors_counterexample :
    errors wEmptyErrs =
      Res.ok (some ([] : List JobError)) (refreshWorld wEmptyErrs) ∧
      (some ([] : List JobError)) ≠ (none : Option (List JobError)) :=
  ⟨rfl, by decide⟩

/-- Claim C4 (amended): in a completing refresh, an absent `status.errors`
leaves the stored `errors` unchanged (hence still None on a fresh handle),
while a present `status.errors` — even the empty sequence — is stored as the
parsed list; an empty present sequence therefore yields a stored empty
sequence, distinct from None. -/
theorem C4_errors_absent_vs_empty (j : Job) (s : JobStatus)
    (hs : s.state = some "DONE") :
    (s.errors = none → (applyResponse j { status := some s }).errors = j.errors) ∧
      ∀ l, s.errors = some l →
        (applyResponse j { status := some s }).errors =
          some (l.map parseJobError) := by
  constructor
  · intro he
    cases her : s.errorResult <;> simp [applyResponse, hs, he, her]
  · intro l he
    cases her : s.errorResult <;> simp [applyResponse, hs, he, her]

/-- Concrete instance of the amended C4: present-but-empty errors are stored
as the empty list. -/
theorem C4_errors_absent_vs_empty_witness :
    (applyResponse (Job.new "job")
        { status := some { state := some "DONE", errorResult := none,
                           errors := some [] } }).errors =
      some ([] : List JobError) :=
  (C4_errors_absent_vs_empty (Job.new "job")
    { state := some "DONE", errorResult := none, errors := some [] } rfl).2 [] rfl

/-- Claim C7: a refresh observing DONE with `errorResult = {message: "boom"}`
completes the handle with fatal error (None, "boom", None); `failed` is then
truthy, `fatal_error` returns the parsed triple with location and reason
unset, and in general each JobError field independently defaults to None when
absent from the payload — parsing is total and never fails. -/
theorem C7_fatal_error_defaults (w : World)
    (hc : w.job.is_complete = false)
    (hr : w.api w.calls = .ok respDoneBoom) :
    (refreshWorld w).job.is_complete = true ∧
      (refreshWorld w).job.fatal_error =
        some { location := none, message := some "boom", reason := none } ∧
      failed (refreshWorld w) =
        .ok (.pyErr { location := none, message := some "boom", reason := none })
          (refreshWorld w) ∧
      truthy (.pyErr { location := none, message := some "boom", reason := none })
        = true ∧
      fatal_error (refreshWorld w) =
        .ok (some { location := none, message := some "boom", reason := none })
          (refreshWorld w) ∧
      ∀ p : ErrorPayload, parseJobError p =
        { location := p.location, message := p.message, reason := p.reason } := by
  have hok := refresh_ok_of_api_ok w respDoneBoom hc hr
  have hrw : refreshWorld w =
      { w with calls := w.calls + 1, job := applyResponse w.job respDoneBoom } := by
    unfold refreshWorld
    rw [hok]
    rfl
  have hj : applyResponse w.job respDoneBoom =
      { job_id := w.job.job_id, is_complete := true, errors := w.job.errors,
        fatal_error :=
          some { location := none, message := some "boom", reason := none } } := by
    simp [applyResponse, respDoneBoom, parseJobError]
  rw [hrw, hj]
  refine ⟨rfl, rfl, ?_, rfl, ?_, fun p => rfl⟩
  · simp [failed, refresh_state, failedValue]
  · simp [fatal_error, refresh_state]

/-- Concrete instance of C7. -/
theorem C7_fatal_error_defaults_witness :
    wBoom.job.is_complete = false ∧
      wBoom.api wBoom.calls = .ok respDoneBoom ∧
      (refreshWorld wBoom).job.fatal_error =
        some { location := none, message := some "boom", reason := none } :=
  ⟨rfl, rfl, (C7_fatal_error_defaults wBoom rfl rfl).2.1⟩

/-- Claim C8: a refresh observing DONE with two partial errors and no
errorResult completes the handle with the two errors parsed in input order;
`failed` is then falsy (None), `fatal_error` stays None, and `errors`
returns the two parsed entries; in general every element of `status.errors`
is parsed by the same per-field rule into `map parseJobError`, preserving
input order. -/
theorem C8_partial_errors (w : World)
    (hc : w.job.is_complete = false)
    (hf : w.job.fatal_error = none)
    (hr : w.api w.calls = .ok respDoneAB) :
    (refreshWorld w).job.is_complete = true ∧
      (refreshWorld w).job.errors =
        some [{ location := none, message := none, reason := some "a" },
              { location := none, message := none, reason := some "b" }] ∧
      (refreshWorld w).job.fatal_error = none ∧
      failed (refreshWorld w) = .ok .pyNone (refreshWorld w) ∧
      truthy .pyNone = false ∧
      errors (refreshWorld w) =
        .ok (some [{ location := none, message := none, reason := some "a" },
                   { location := none, message := none, reason := some "b" }])
          (refreshWorld w) ∧
      ∀ (jb : Job) (s : JobStatus) (l : List ErrorPayload),
        s.state = some "DONE" → s.errors = some l →
        (applyResponse jb { status := some s }).errors =
          some (l.map parseJobError) := by
  have hok := refresh_ok_of_api_ok w respDoneAB hc hr
  have hrw : refreshWorld w =
      { w with calls := w.calls + 1, job := applyResponse w.job respDoneAB } := by
    unfold refreshWorld
    rw [hok]
    rfl
  have hj : applyResponse w.job respDoneAB =
      { job_id := w.job.job_id, is_complete := true,
        errors := some [{ location := none, message := none, reason := some "a" },
                        { location := none, message := none, reason := some "b" }],
        fatal_error := w.job.fatal_error } := by
    simp [applyResponse, respDoneAB, parseJobError]
  rw [hrw, hj, hf]
  refine ⟨rfl, rfl, rfl, ?_, rfl, ?_, ?_⟩
  · simp [failed, refresh_state, failedValue]
  · simp [errors, refresh_state]
  · intro jb s l hs he
    cases her : s.errorResult <;> simp [applyResponse, hs, he, her]

/-- Concrete instance of C8. -/
theorem C8_partial_errors_witness :
    wAB.job.is_complete = false ∧ wAB.job.fatal_error = none ∧
      wAB.api wAB.calls = .ok respDoneAB ∧
      (refreshWorld wAB).job.errors =
        some [{ location := none, message := none, reason := some "a" },
              { location := none, message := none, reason := some "b" }] :=
  ⟨rfl, rfl, rfl, (C8_partial_errors wAB rfl rfl rfl).2.1⟩

/-- Claim C9: a successful response with no `status` field, or whose
`status.state` is absent or different from DONE, leaves the cached job state
exactly unchanged; consequently `iscomplete` still reports false and `failed`
returns the boolean False on such a refresh of an incomplete handle. -/
theorem C9_nonterminal_frame (r : StatusResponse)
    (hnt : r.status = none ∨ ∃ s, r.status = some s ∧ s.state ≠ some "DONE") :
    (∀ jb : Job, applyResponse jb r = jb) ∧
      ∀ w : World, w.job.is_complete = false → w.api w.calls = .ok r →
        (refreshWorld w).job = w.job ∧
          iscomplete w = .ok false (refreshWorld w) ∧
          failed w = .ok (.pyBool false) (refreshWorld w) := by
  have hall : ∀ jb : Job, applyResponse jb r = jb := by
    intro jb
    rcases hnt with hn | ⟨s, hsome, hs⟩
    · simp [applyResponse, hn]
    · simp [applyResponse, hsome, hs]
  refine ⟨hall, fun w hc hr => ?_⟩
  have hok := refresh_ok_of_api_ok w r hc hr
  have hrw : refreshWorld w =
      { w with calls := w.calls + 1, job := applyResponse w.job r } := by
    unfold refreshWorld
    rw [hok]
    rfl
  refine ⟨by rw [hrw]; exact hall w.job, ?_, ?_⟩
  · unfold iscomplete
    rw [hok, hrw]
    simp [hall w.job, hc]
  · unfold failed
    rw [hok, hrw]
    simp [failedValue, hall w.job, hc]

/-- Concrete instance of C9: a response without a status field. -/
theorem C9_nonterminal_frame_witness :
    (respNoStatus.status = none ∨
      ∃ s, respNoStatus.status = some s ∧ s.state ≠ some "DONE") ∧
      iscomplete wNoStatus = .ok false (refreshWorld wNoStatus) :=
  ⟨Or.inl rfl,
    ((C9_nonterminal_frame respNoStatus (Or.inl rfl)).2 wNoStatus rfl rfl).2.1⟩

/-- Claim C6: when the handle is incomplete and `jobs_get` raises a
transport/API error, every accessor and wait propagates that exact error to
the caller, unretried and unconverted (exactly one call is made), and the
cached job state is exactly as before the call. -/
theorem C6_transport_error (w : World) (e : String)
    (hc : w.job.is_complete = false)
    (hr : w.api w.calls = .transportError e) :
    iscomplete w = .exn e { w with calls := w.calls + 1 } ∧
      failed w = .exn e { w with calls := w.calls + 1 } ∧
      fatal_error w = .exn e { w with calls := w.calls + 1 } ∧
      errors w = .exn e { w with calls := w.calls + 1 } ∧
      (∀ fuel t p, wait (fuel + 1) t p w = .exn e { w with calls := w.calls + 1 }) ∧
      ({ w with calls := w.calls + 1 } : World).job = w.job ∧
      ({ w with calls := w.calls + 1 } : World).sleeps = w.sleeps := by
  have hexn := refresh_exn_of_api_err w e hc hr
  have hic : iscomplete w = .exn e { w with calls := w.calls + 1 } := by
    unfold iscomplete
    rw [hexn]
  refine ⟨hic, ?_, ?_, ?_, fun fuel t p => ?_, rfl, rfl⟩
  · unfold failed
    rw [hexn]
  · unfold fatal_error
    rw [hexn]
  · unfold errors
    rw [hexn]
  · unfold wait
    rw [hic]

/-- Concrete instance of C6: a socket timeout on the first call propagates
from `iscomplete` with the job state intact. -/
theorem C6_transport_error_witness :
    wNet.job.is_complete = false ∧
      wNet.api wNet.calls = .transportError "socket timeout" ∧
      iscomplete wNet = .exn "socket timeout" { wNet with calls := wNet.calls + 1 } :=
  ⟨rfl, rfl, (C6_transport_error wNet "socket timeout" rfl rfl).1⟩

/-- Claim C5: in each wait iteration the budget check happens before any
sleep — a non-positive budget returns False at once (no further sleep,
`w2.sleeps = w.sleeps`), a positive budget is decremented by the poll
interval and exactly one sleep of the poll interval is taken before
retrying; concretely, `wait(timeout=10, poll=5)` against a never-completing
job returns False after exactly two sleeps of 5 (and three status calls). -/
theorem C5_wait_timeout (w w2 : World) (t p : Int) (fuel : Nat)
    (hi : iscomplete w = .ok false w2) :
    (t ≤ 0 → wait (fuel + 1) (some t) p w = .ok (some false) w2) ∧
      (0 < t → wait (fuel + 1) (some t) p w =
        wait fuel (some (t - p)) p (sleepW p w2)) ∧
      w2.sleeps = w.sleeps ∧
      (sleepW p w2).sleeps = w2.sleeps ++ [p] ∧
      wait 10 (some 10) 5 wNever =
        .ok (some false)
          { job := Job.new "job", api := apiAlwaysRunning,
            calls := 3, sleeps := [5, 5] } := by
  have hsl : w2.sleeps = w.sleeps := by
    rcases iscomplete_shape w with hsh | ⟨e, hsh⟩
    · rw [hi] at hsh
      injection hsh with h1 h2
      rw [h2]
      exact refreshWorld_sleeps w
    · rw [hi] at hsh
      exact Res.noConfusion hsh
  refine ⟨fun ht => ?_, fun ht => ?_, hsl, rfl, ?_⟩
  · unfold wait
    rw [hi]
    show (if t ≤ 0 then Res.ok (some false) w2
          else wait fuel (some (t - p)) p (sleepW p w2)) = Res.ok (some false) w2
    rw [if_pos ht]
  · conv_lhs => rw [wait]
    rw [hi]
    show (if t ≤ 0 then Res.ok (some false) w2
          else wait fuel (some (t - p)) p (sleepW p w2)) =
        wait fuel (some (t - p)) p (sleepW p w2)
    rw [if_neg (show ¬t ≤ 0 by omega)]
  · rfl

/-- Concrete instance of C5's exit clause: with an exhausted budget, wait
returns False right after the completeness check, without sleeping. -/
theorem C5_wait_timeout_witness :
    iscomplete wNever = Res.ok false (refreshWorld wNever) ∧ (0 : Int) ≤ 0 ∧
      wait 4 (some 0) 5 wNever = Res.ok (some false) (refreshWorld wNever) :=
  ⟨rfl, by decide,
    (C5_wait_timeout wNever (refreshWorld wNever) 0 5 3 rfl).1 (by decide)⟩

end PyGcpBigQuery
